import Mathlib

/-!
Shallow embedding of the resilient conversation orchestrator of the
Maya-One voice agent (the `Agent/` Python tree), together with proofs
settling the frozen claims about its specification.

Each definition mirrors a concrete Python function or data structure of
the repository; the file references the source location next to each
definition.  Machine-level concerns (event loop scheduling, wall-clock
time) are modelled with explicit parameters; fallible paths return
explicit outcome values.
-/

namespace Maya

/-! ## Governance types (`core/governance/types.py`) -/

/-- Risk classification of a tool (`RiskLevel`, an `IntEnum` with values
0..4). -/
inductive RiskLevel
  | READ_ONLY
  | LOW
  | MEDIUM
  | HIGH
  | CRITICAL
deriving DecidableEq, Repr

/-- Authority level of the user (`UserRole`, an `IntEnum` with values
0..3). -/
inductive UserRole
  | GUEST
  | USER
  | TRUSTED
  | ADMIN
deriving DecidableEq, Repr

/-- Integer value of a `RiskLevel` member, as in the Python `IntEnum`. -/
def RiskLevel.toNat : RiskLevel → Nat
  | .READ_ONLY => 0
  | .LOW => 1
  | .MEDIUM => 2
  | .HIGH => 3
  | .CRITICAL => 4

/-- The `.name` attribute of a `RiskLevel` member. -/
def RiskLevel.name : RiskLevel → String
  | .READ_ONLY => "READ_ONLY"
  | .LOW => "LOW"
  | .MEDIUM => "MEDIUM"
  | .HIGH => "HIGH"
  | .CRITICAL => "CRITICAL"

/-- Integer value of a `UserRole` member, as in the Python `IntEnum`. -/
def UserRole.toNat : UserRole → Nat
  | .GUEST => 0
  | .USER => 1
  | .TRUSTED => 2
  | .ADMIN => 3

/-- The `.name` attribute of a `UserRole` member. -/
def UserRole.name : UserRole → String
  | .GUEST => "GUEST"
  | .USER => "USER"
  | .TRUSTED => "TRUSTED"
  | .ADMIN => "ADMIN"

/-- `UserRole.max_risk` (`core/governance/types.py`, lines 12-26). -/
def UserRole.max_risk : UserRole → RiskLevel
  | .ADMIN => .CRITICAL
  | .TRUSTED => .HIGH
  | .USER => .MEDIUM
  | .GUEST => .LOW

/-- Python `IntEnum` comparison `a <= b` on risk levels. -/
def RiskLevel.le (a b : RiskLevel) : Bool := a.toNat ≤ b.toNat

/-- Python `IntEnum` comparison `a > b` on risk levels. -/
def RiskLevel.gt (a b : RiskLevel) : Bool := b.toNat < a.toNat

/-- Python `str.lower()` on one character: ASCII upper-case letters map
to their lower-case forms (all tool names in this repository are
ASCII). -/
def pyCharLower (c : Char) : Char :=
  if c.isUpper then Char.ofNat (c.toNat + 32) else c

/-- Python `str.lower()` restricted to ASCII strings. -/
def pyLower (s : String) : String := String.mk (s.data.map pyCharLower)

/-! ## Risk policy (`core/governance/policy.py`) -/

/-- `ToolRiskPolicy._POLICY`: the fixed policy dictionary mapping tool
names to risk levels (`core/governance/policy.py`, lines 10-40). -/
def ToolRiskPolicy.POLICY : List (String × RiskLevel) :=
  [ ("get_current_datetime", .READ_ONLY)
  , ("get_date", .READ_ONLY)
  , ("get_time", .READ_ONLY)
  , ("get_weather", .LOW)
  , ("search_web", .LOW)
  , ("list_alarms", .MEDIUM)
  , ("list_reminders", .MEDIUM)
  , ("list_notes", .MEDIUM)
  , ("read_note", .MEDIUM)
  , ("list_calendar_events", .MEDIUM)
  , ("set_alarm", .HIGH)
  , ("delete_alarm", .HIGH)
  , ("set_reminder", .HIGH)
  , ("delete_reminder", .HIGH)
  , ("create_note", .HIGH)
  , ("delete_note", .HIGH)
  , ("create_calendar_event", .HIGH)
  , ("delete_calendar_event", .HIGH)
  , ("send_email", .HIGH)
  , ("open_app", .HIGH)
  , ("close_app", .HIGH)
  ]

/-- `ToolRiskPolicy.get_risk`: lower-cases the tool name, looks it up
in the policy table, and defaults to `HIGH` for unknown tools
(`core/governance/policy.py`, lines 42-50). -/
def ToolRiskPolicy.get_risk (tool_name : String) : RiskLevel :=
  let normalized_name := pyLower tool_name
  (ToolRiskPolicy.POLICY.lookup normalized_name).getD .HIGH

/-! ## Execution gate (`core/governance/gate.py`) -/

/-- `ExecutionGate.check_access` (`core/governance/gate.py`,
lines 9-25): deny when the tool risk exceeds the role cap, allow
otherwise. -/
def ExecutionGate.check_access (tool_name : String) (user_role : UserRole) : Bool :=
  let tool_risk := ToolRiskPolicy.get_risk tool_name
  let user_max_risk := user_role.max_risk
  if tool_risk.gt user_max_risk then false else true

/-- `ExecutionGate.get_denial_reason` (`core/governance/gate.py`,
lines 27-36). -/
def ExecutionGate.get_denial_reason (tool_name : String) (user_role : UserRole) : String :=
  let tool_risk := ToolRiskPolicy.get_risk tool_name
  s!"Permission Denied: \x27{tool_name}\x27 is classified as {tool_risk.name} risk. " ++
    s!"Your role ({user_role.name}) only allows up to {user_role.max_risk.name} risk."

/-- Claim C1: for every tool name and every user role,
`ExecutionGate.check_access(tool, role)` returns `true` if and only if
the tool's risk level under `ToolRiskPolicy` (lower-cased lookup in the
fixed policy table, default `HIGH`) is at most the role's `max_risk`
(GUEST ↦ LOW, USER ↦ MEDIUM, TRUSTED ↦ HIGH, ADMIN ↦ CRITICAL). -/
theorem C1_check_access_iff (tool : String) (role : UserRole) :
    (ExecutionGate.check_access tool role = true ↔
      (ToolRiskPolicy.get_risk tool).toNat ≤ role.max_risk.toNat) ∧
    UserRole.GUEST.max_risk = .LOW ∧ UserRole.USER.max_risk = .MEDIUM ∧
    UserRole.TRUSTED.max_risk = .HIGH ∧ UserRole.ADMIN.max_risk = .CRITICAL := by
  refine ⟨?_, rfl, rfl, rfl, rfl⟩
  unfold ExecutionGate.check_access RiskLevel.gt
  constructor
  · intro h
    by_contra hle
    simp only [Nat.not_le] at hle
    simp [hle] at h
  · intro h
    have : ¬ role.max_risk.toNat < (ToolRiskPolicy.get_risk tool).toNat :=
      Nat.not_lt.mpr h
    simp [this]

/-! ## Audit log (`core/governance/audit.py`) -/

/-- Python truncation applied by `AuditLogger.log_result`
(`core/governance/audit.py`, lines 76-79). -/
def pyTruncateResult (s : String) : String :=
  if s.length > 1000 then (s.take 1000) ++ "... (truncated)" else s

/-- One structured record on the `audit` logger.  The constructors
mirror the `event` field written by `AuditLogger.log_attempt`,
`log_block` and `log_result` (`core/governance/audit.py`,
lines 22-92); `trace_id` is the correlation id returned by
`log_attempt`. -/
inductive AuditRecord
  | execution_attempt (trace_id : Nat) (tool : String) (role : UserRole) (user_id : String)
  | execution_blocked (trace_id : Nat) (tool : String) (reason : String)
  | execution_result (trace_id : Nat) (tool : String) (result : String) (success : Bool)
deriving DecidableEq, Repr

/-- Whether a record is an `execution_result` record. -/
def AuditRecord.is_result : AuditRecord → Bool
  | .execution_result _ _ _ _ => true
  | _ => false

/-! ## Governed tool executor (`core/tools/tool_manager.py`) -/

/-- Outcome of looking up and running the matched tool inside
`tool_executor` (`core/tools/tool_manager.py`, lines 130-194): the tool
may be absent from both the tool map and the skill registry, found but
not callable by any strategy, or found and run to a result or an
exception. -/
inductive ToolRun
  | missing
  | notCallable
  | ok (result : String)
  | raises (e : String)
deriving DecidableEq, Repr

/-- Observable outcome of one `tool_executor` call: the returned
string, the audit records written in order, and whether the underlying
tool body ran. -/
structure ExecutorOutput where
  response : String
  audit : List AuditRecord
  executed : Bool
deriving DecidableEq, Repr

/-- `tool_executor` (`core/tools/tool_manager.py`, lines 104-194).
`chaos_fires` stands for `chaos_config.enabled ∧ tool_failure_rate > 0
∧ random.random() < tool_failure_rate`; `trace_id` is the id generated
by `AuditLogger.log_attempt`; `tool` is the result of the tool-map /
skill-registry lookup and of running the tool body. -/
def tool_executor (chaos_fires : Bool) (name : String) (user_role : UserRole)
    (user_id : String) (trace_id : Nat) (tool : ToolRun) : ExecutorOutput :=
  if chaos_fires then
    { response := s!"Error: Tool {name} failed (Simulated Chaos)"
    , audit := [], executed := false }
  else
    let attempt := AuditRecord.execution_attempt trace_id name user_role user_id
    if ExecutionGate.check_access name user_role = false then
      let reason := ExecutionGate.get_denial_reason name user_role
      { response := "⛔ " ++ reason
      , audit := [attempt, .execution_blocked trace_id name reason]
      , executed := false }
    else
      match tool with
      | .missing =>
          { response := s!"Tool {name} not found.", audit := [attempt], executed := false }
      | .notCallable =>
          { response := s!"Tool {name} is not callable", audit := [attempt], executed := false }
      | .ok r =>
          { response := r
          , audit := [attempt, .execution_result trace_id name (pyTruncateResult r) true]
          , executed := true }
      | .raises e =>
          { response := s!"Error: {e}"
          , audit := [attempt, .execution_result trace_id name (pyTruncateResult e) false]
          , executed := true }

/-- Claim C2: when the gate denies a governed tool-executor call (and
the chaos fault does not fire), the executor writes an attempt record
followed by a blocked record sharing the same trace id, writes no
result record, does not execute the tool, and returns `"⛔ " ++ reason`;
for `send_email` under role GUEST the returned string is verbatim
`⛔ Permission Denied: 'send_email' is classified as HIGH risk. Your
role (GUEST) only allows up to LOW risk.` -/
theorem C2_gate_denied_audit_and_message (name : String) (role : UserRole)
    (uid : String) (tid : Nat) (tool : ToolRun)
    (hdeny : ExecutionGate.check_access name role = false) :
    tool_executor false name role uid tid tool =
      { response := "⛔ " ++ ExecutionGate.get_denial_reason name role
      , audit := [AuditRecord.execution_attempt tid name role uid,
                  AuditRecord.execution_blocked tid name
                    (ExecutionGate.get_denial_reason name role)]
      , executed := false } ∧
    ((tool_executor false name role uid tid tool).audit.all fun r => !r.is_result) = true ∧
    (tool_executor false "send_email" UserRole.GUEST uid tid tool).response =
      "⛔ Permission Denied: \x27send_email\x27 is classified as HIGH risk. " ++
        "Your role (GUEST) only allows up to LOW risk." := by
  have hsd : ExecutionGate.check_access "send_email" UserRole.GUEST = false := by decide
  refine ⟨?_, ?_, ?_⟩
  · simp [tool_executor, hdeny]
  · simp [tool_executor, hdeny, AuditRecord.is_result]
  · have : (tool_executor false "send_email" UserRole.GUEST uid tid tool).response =
        "⛔ " ++ ExecutionGate.get_denial_reason "send_email" UserRole.GUEST := by
      simp [tool_executor, hsd]
    rw [this]
    decide

/-- Witness for C2 at `send_email`, role GUEST. -/
theorem C2_gate_denied_audit_and_message_witness :
    tool_executor false "send_email" UserRole.GUEST "user-1" 7 ToolRun.missing =
      { response := "⛔ " ++ ExecutionGate.get_denial_reason "send_email" UserRole.GUEST
      , audit := [AuditRecord.execution_attempt 7 "send_email" UserRole.GUEST "user-1",
                  AuditRecord.execution_blocked 7 "send_email"
                    (ExecutionGate.get_denial_reason "send_email" UserRole.GUEST)]
      , executed := false } ∧
    ((tool_executor false "send_email" UserRole.GUEST "user-1" 7 ToolRun.missing).audit.all
      fun r => !r.is_result) = true ∧
    (tool_executor false "send_email" UserRole.GUEST "user-1" 7 ToolRun.missing).response =
      "⛔ Permission Denied: \x27send_email\x27 is classified as HIGH risk. " ++
        "Your role (GUEST) only allows up to LOW risk." :=
  C2_gate_denied_audit_and_message "send_email" UserRole.GUEST "user-1" 7
    ToolRun.missing (by decide)

/-- Counterexample to claim C8 as stated: when the chaos tool-failure
fault fires, the executor returns the simulated error string but the
audit log receives no records at all — in particular no attempt and no
result record exist, because the chaos check precedes
`AuditLogger.log_attempt`. -/
theorem C8_counterexample :
    tool_executor true "send_email" UserRole.ADMIN "user-1" 7 (ToolRun.ok "sent") =
      { response := "Error: Tool send_email failed (Simulated Chaos)"
      , audit := [], executed := false } ∧
    (tool_executor true "send_email" UserRole.ADMIN "user-1" 7 (ToolRun.ok "sent")).audit = [] :=
  ⟨by decide, by decide⟩

/-- Claim C8 (amended): when the chaos tool-failure fault fires, the
executor returns the simulated error string
`Error: Tool {name} failed (Simulated Chaos)` without executing the
tool, and writes no audit records, since the chaos early-return
precedes the audit attempt entry. -/
theorem C8_chaos_tool_failure (name : String) (role : UserRole)
    (uid : String) (tid : Nat) (tool : ToolRun) :
    tool_executor true name role uid tid tool =
      { response := s!"Error: Tool {name} failed (Simulated Chaos)"
      , audit := [], executed := false } := by
  simp [tool_executor]
/-! ## Provider health (`core/providers/provider_health.py`) -/

/-- `ProviderState` (`core/providers/provider_health.py`, lines 6-10). -/
inductive ProviderState
  | HEALTHY
  | DEGRADED
  | RECONNECTING
  | OFFLINE
deriving DecidableEq, Repr

/-- `ProviderHealth` (`core/providers/provider_health.py`, lines 12-18).
Timestamps are abstract ticks. -/
structure ProviderHealth where
  name : String
  state : ProviderState
  last_success_ts : Nat
  failure_count : Nat
  last_error : Option String
deriving DecidableEq, Repr

/-- A freshly constructed `ProviderHealth(name=name)`: dataclass
defaults. -/
def ProviderHealth.init (name : String) (now : Nat) : ProviderHealth :=
  { name := name, state := .HEALTHY, last_success_ts := now
  , failure_count := 0, last_error := none }

/-- `ProviderHealth.mark_success` (`provider_health.py`, lines 20-24). -/
def ProviderHealth.mark_success (h : ProviderHealth) (now : Nat) : ProviderHealth :=
  { h with
    state := .HEALTHY
    last_success_ts := now
    failure_count := 0
    last_error := none }

/-- `ProviderHealth.mark_failure` (`provider_health.py`, lines 26-32):
increment the counter first, then go `OFFLINE` when it exceeds 3, else
`DEGRADED`. -/
def ProviderHealth.mark_failure (h : ProviderHealth) (error : String) : ProviderHealth :=
  { h with
    failure_count := h.failure_count + 1
    last_error := some error
    state := if h.failure_count + 1 > 3 then .OFFLINE else .DEGRADED }

/-! ## Provider supervisor (`core/providers/provider_supervisor.py`)

The supervisor keys its `_health_map`, `_providers` and
`_reconnect_tasks` dictionaries by provider name, and every operation
touches a single name, so per-provider state is independent; we model
the entry of one provider.  Task cancellation is modelled as atomic: a
cancelled reconnect task performs no further observable work. -/

/-- Per-provider supervisor state: the health record, whether the name
is a key of `_reconnect_tasks`, and how many reconnect tasks for the
name are live. -/
structure SupervisorEntry where
  health : ProviderHealth
  task_in_dict : Bool
  live_tasks : Nat
deriving DecidableEq, Repr

/-- `register_provider` (`provider_supervisor.py`, lines 39-42): fresh
health, no reconnect task. -/
def SupervisorEntry.register (name : String) (now : Nat) : SupervisorEntry :=
  { health := ProviderHealth.init name now, task_in_dict := false, live_tasks := 0 }

/-- Atomic events touching one provider's supervisor state:
`mark_failed` and `mark_healthy` calls (lines 47-66), one guard pass of
the monitor loop (lines 97-99), and one `attempt_reconnect` outcome
inside `_reconnect_loop` (lines 124-132). -/
inductive SupervisorEvent
  | mark_failed (error : String)
  | mark_healthy (now : Nat)
  | monitor_tick
  | attempt_failed
  | attempt_succeeded (now : Nat)
deriving DecidableEq, Repr

/-- One supervisor step.  `mark_failed` records the failure and spawns
a reconnect task only when the state became `OFFLINE` and the name is
not in `_reconnect_tasks`; `mark_healthy` records success and cancels
the recorded task; a monitor tick re-arms a task for an `OFFLINE`
provider with no recorded task; a successful reconnect attempt performs
`mark_healthy` and ends its own task. -/
def supervisor_step (s : SupervisorEntry) (e : SupervisorEvent) : SupervisorEntry :=
  match e with
  | .mark_failed err =>
      if (s.health.mark_failure err).state = .OFFLINE ∧ s.task_in_dict = false then
        { health := s.health.mark_failure err, task_in_dict := true
        , live_tasks := s.live_tasks + 1 }
      else { s with health := s.health.mark_failure err }
  | .mark_healthy now =>
      if s.task_in_dict = true then
        { health := s.health.mark_success now, task_in_dict := false
        , live_tasks := s.live_tasks - 1 }
      else { s with health := s.health.mark_success now }
  | .monitor_tick =>
      if s.health.state = .OFFLINE ∧ s.task_in_dict = false then
        { s with task_in_dict := true, live_tasks := s.live_tasks + 1 }
      else s
  | .attempt_failed => s
  | .attempt_succeeded now =>
      if 0 < s.live_tasks then
        { health := s.health.mark_success now, task_in_dict := false
        , live_tasks := s.live_tasks - 1 }
      else s

/-- Run a sequence of supervisor events from a state. -/
def supervisor_run (s : SupervisorEntry) (events : List SupervisorEvent) : SupervisorEntry :=
  events.foldl supervisor_step s

/-- Coupling invariant: the number of live reconnect tasks of a
provider equals its `_reconnect_tasks` membership. -/
def TaskInv (s : SupervisorEntry) : Prop :=
  s.live_tasks = (if s.task_in_dict = true then 1 else 0)

theorem supervisor_step_preserves_TaskInv (s : SupervisorEntry) (e : SupervisorEvent)
    (h : TaskInv s) : TaskInv (supervisor_step s e) := by
  unfold TaskInv at h
  cases e with
  | mark_failed err =>
      by_cases hc : ((s.health.mark_failure err).state = .OFFLINE ∧ s.task_in_dict = false)
      · simp only [supervisor_step, if_pos hc, TaskInv]
        rw [hc.2] at h
        simp only [Bool.false_eq_true, if_false] at h
        simp [h]
      · simp only [supervisor_step, if_neg hc, TaskInv]
        exact h
  | mark_healthy now =>
      by_cases hd : s.task_in_dict = true
      · simp only [supervisor_step, if_pos hd, TaskInv]
        rw [hd] at h
        simp only [if_true] at h
        simp [h]
      · simp only [supervisor_step, if_neg hd, TaskInv]
        have hd' : s.task_in_dict = false := by simpa using hd
        rw [hd'] at h
        simp only [Bool.false_eq_true, if_false] at h
        exact h
  | monitor_tick =>
      by_cases hc : (s.health.state = .OFFLINE ∧ s.task_in_dict = false)
      · simp only [supervisor_step, if_pos hc, TaskInv]
        rw [hc.2] at h
        simp only [Bool.false_eq_true, if_false] at h
        simp [h]
      · simp only [supervisor_step, if_neg hc, TaskInv]
        exact h
  | attempt_failed =>
      simpa only [supervisor_step, TaskInv] using h
  | attempt_succeeded now =>
      by_cases hl : 0 < s.live_tasks
      · simp only [supervisor_step, if_pos hl, TaskInv]
        by_cases hd : s.task_in_dict = true
        · rw [hd] at h
          simp only [if_true] at h
          simp [h]
        · have hd' : s.task_in_dict = false := by simpa using hd
          rw [hd'] at h
          simp only [Bool.false_eq_true, if_false] at h
          omega
      · simp only [supervisor_step, if_neg hl, TaskInv]
        exact h

theorem supervisor_run_preserves_TaskInv (s : SupervisorEntry)
    (events : List SupervisorEvent) (h : TaskInv s) :
    TaskInv (supervisor_run s events) := by
  induction events generalizing s with
  | nil => exact h
  | cons e rest ih => exact ih _ (supervisor_step_preserves_TaskInv s e h)

/-! ## Reconnect loop (`provider_supervisor.py`, lines 107-137) -/

/-- The backoff schedule of `_reconnect_loop`. -/
def backoff_schedule : List Nat := [2, 5, 10, 30]

/-- Sleep duration of the attempt with index `attempt`:
`backoff_schedule[min(attempt, len(backoff_schedule) - 1)]`. -/
def backoff_at (attempt : Nat) : Nat :=
  backoff_schedule.getD (min attempt (backoff_schedule.length - 1)) 0

/-- The sleeps performed by `_reconnect_loop` starting at attempt index
`attempt`, driven by the successive results of
`proxy.attempt_reconnect()`; the Bool reports whether an attempt
succeeded, which ends the loop via `mark_healthy` and `break`.  A
truncated outcome list models a loop that is still running. -/
def reconnect_sleeps : List Bool → Nat → List Nat × Bool
  | [], _ => ([], false)
  | outcome :: rest, attempt =>
      if outcome then ([backoff_at attempt], true)
      else
        let r := reconnect_sleeps rest (attempt + 1)
        (backoff_at attempt :: r.1, r.2)

/-- The number of `attempt_reconnect` calls the loop makes on a given
outcome sequence: one per leading failure plus one for the first
success. -/
def numAttempts : List Bool → Nat
  | [] => 0
  | true :: _ => 1
  | false :: rest => numAttempts rest + 1

theorem reconnect_sleeps_closed_form (outs : List Bool) (a : Nat) :
    (reconnect_sleeps outs a).1 =
      (List.range (numAttempts outs)).map (fun j => backoff_at (a + j)) := by
  induction outs generalizing a with
  | nil => simp [reconnect_sleeps, numAttempts]
  | cons o rest ih =>
      cases o with
      | true =>
          have hr : List.range 1 = [0] := rfl
          simp [reconnect_sleeps, numAttempts, hr]
      | false =>
          have h1 : (reconnect_sleeps (false :: rest) a).1 =
              backoff_at a :: (reconnect_sleeps rest (a + 1)).1 := by
            simp [reconnect_sleeps]
          have h2 : numAttempts (false :: rest) = numAttempts rest + 1 := rfl
          rw [h1, ih (a + 1), h2, List.range_succ_eq_map, List.map_cons, List.map_map]
          have hfun : ((fun j => backoff_at (a + j)) ∘ Nat.succ) =
              (fun j => backoff_at (a + 1 + j)) := by
            funext j
            simp only [Function.comp_apply]
            congr 1
            omega
          rw [hfun]
          simp

theorem numAttempts_replicate_false (k : Nat) (rest : List Bool) :
    numAttempts (List.replicate k false ++ true :: rest) = k + 1 := by
  induction k with
  | zero => simp [numAttempts]
  | succ n ih => simp [List.replicate_succ, numAttempts, ih]

theorem reconnect_sleeps_success_flag (k : Nat) (rest : List Bool) (a : Nat) :
    (reconnect_sleeps (List.replicate k false ++ true :: rest) a).2 = true := by
  induction k generalizing a with
  | zero => simp [reconnect_sleeps]
  | succ n ih => simp [List.replicate_succ, reconnect_sleeps, ih]

/-- Claim C5: the i-th reconnect attempt (counting from 0) sleeps
`backoff[min(i, 3)]` seconds with backoff `[2, 5, 10, 30]`, clamped at
30 for all later attempts; a successful `attempt_reconnect()`
transitions the provider to HEALTHY and ends the loop; a failed
attempt increments the attempt index; and at most one reconnect task
exists per provider at every moment, since `mark_failed` and the
monitor loop spawn one only when none is recorded. -/
theorem C5_reconnect_discipline :
    (∀ (outs : List Bool) (a : Nat),
        (reconnect_sleeps outs a).1 =
          (List.range (numAttempts outs)).map (fun j => backoff_at (a + j))) ∧
    (∀ i : Nat, backoff_at i = backoff_schedule.getD (min i 3) 0) ∧
    (backoff_at 0 = 2 ∧ backoff_at 1 = 5 ∧ backoff_at 2 = 10 ∧ backoff_at 3 = 30) ∧
    (∀ i : Nat, 3 ≤ i → backoff_at i = 30) ∧
    (∀ (k : Nat) (rest : List Bool),
        reconnect_sleeps (List.replicate k false ++ true :: rest) 0 =
          ((List.range (k + 1)).map backoff_at, true)) ∧
    (∀ (s : SupervisorEntry) (now : Nat), 0 < s.live_tasks →
        (supervisor_step s (.attempt_succeeded now)).health.state = .HEALTHY) ∧
    (∀ (rest : List Bool) (a : Nat),
        reconnect_sleeps (false :: rest) a =
          (backoff_at a :: (reconnect_sleeps rest (a + 1)).1,
            (reconnect_sleeps rest (a + 1)).2)) ∧
    (∀ (name : String) (now : Nat) (events : List SupervisorEvent),
        (supervisor_run (SupervisorEntry.register name now) events).live_tasks ≤ 1) := by
  refine ⟨reconnect_sleeps_closed_form, fun i => rfl, ⟨rfl, rfl, rfl, rfl⟩, ?_, ?_, ?_, ?_, ?_⟩
  · intro i hi
    unfold backoff_at
    have h3 : min i (backoff_schedule.length - 1) = 3 := by
      simp only [backoff_schedule, List.length]
      omega
    rw [h3]
    decide
  · intro k rest
    have h1 := reconnect_sleeps_closed_form (List.replicate k false ++ true :: rest) 0
    have h2 := reconnect_sleeps_success_flag k rest 0
    have h3 := numAttempts_replicate_false k rest
    rw [Prod.ext_iff]
    refine ⟨?_, h2⟩
    rw [h1, h3]
    simp
  · intro s now hl
    simp only [supervisor_step, if_pos hl]
    rfl
  · intro rest a
    simp [reconnect_sleeps]
  · intro name now events
    have h0 : TaskInv (SupervisorEntry.register name now) := by
      unfold TaskInv SupervisorEntry.register
      simp
    have hinv := supervisor_run_preserves_TaskInv _ events h0
    unfold TaskInv at hinv
    rw [hinv]
    split <;> omega

/-- Witness for C5: four failing attempts then a success, with the
concrete sleep sequence 2, 5, 10, 30, 30 and a concrete supervisor
trace in which the task count never exceeds one. -/
theorem C5_reconnect_discipline_witness :
    (reconnect_sleeps [false, true] 0).1 =
      (List.range (numAttempts [false, true])).map (fun j => backoff_at (0 + j)) ∧
    backoff_at 4 = backoff_schedule.getD (min 4 3) 0 ∧
    backoff_at 4 = 30 ∧
    reconnect_sleeps (List.replicate 4 false ++ true :: []) 0 =
      ((List.range 5).map backoff_at, true) ∧
    (supervisor_step
        { health := ProviderHealth.init "stt" 0, task_in_dict := true, live_tasks := 1 }
        (.attempt_succeeded 9)).health.state = .HEALTHY ∧
    (supervisor_run (SupervisorEntry.register "stt" 0)
        [.mark_failed "e1", .mark_failed "e2", .mark_failed "e3", .mark_failed "e4",
         .monitor_tick, .attempt_failed, .attempt_succeeded 9]).live_tasks ≤ 1 := by
  refine ⟨?_, ?_, ?_, ?_, ?_, ?_⟩
  · exact C5_reconnect_discipline.1 [false, true] 0
  · exact C5_reconnect_discipline.2.1 4
  · exact C5_reconnect_discipline.2.2.2.1 4 (by decide)
  · exact C5_reconnect_discipline.2.2.2.2.1 4 []
  · exact C5_reconnect_discipline.2.2.2.2.2.1 _ 9 (by decide)
  · exact C5_reconnect_discipline.2.2.2.2.2.2.2 "stt" 0 _

/-- Claim C3: `mark_failure` moves the state to DEGRADED while the
(post-increment) failure count is at most 3 and to OFFLINE once it
exceeds 3; `mark_success` from any state sets HEALTHY, zero failures
and no last error; and the supervisor's `mark_healthy` on an
already-HEALTHY provider leaves the state HEALTHY with zeroed
counters. -/
theorem C3_health_transitions (h : ProviderHealth) (s : SupervisorEntry)
    (err : String) (now : Nat) :
    ((h.mark_failure err).failure_count ≤ 3 → (h.mark_failure err).state = .DEGRADED) ∧
    (3 < (h.mark_failure err).failure_count → (h.mark_failure err).state = .OFFLINE) ∧
    ((h.mark_failure err).failure_count = h.failure_count + 1) ∧
    ((h.mark_success now).state = .HEALTHY ∧ (h.mark_success now).failure_count = 0 ∧
      (h.mark_success now).last_error = none) ∧
    (s.health.state = .HEALTHY →
      ((supervisor_run s [.mark_healthy now]).health.state = .HEALTHY ∧
        (supervisor_run s [.mark_healthy now]).health.failure_count = 0 ∧
        (supervisor_run s [.mark_healthy now]).health.last_error = none)) := by
  refine ⟨?_, ?_, rfl, ⟨rfl, rfl, rfl⟩, ?_⟩
  · intro hle
    simp only [ProviderHealth.mark_failure] at hle ⊢
    have hn : ¬ h.failure_count + 1 > 3 := by omega
    simp [hn]
  · intro hgt
    simp only [ProviderHealth.mark_failure] at hgt ⊢
    have hp : h.failure_count + 1 > 3 := by omega
    simp [hp]
  · intro _
    simp only [supervisor_run, List.foldl, supervisor_step]
    split
    · exact ⟨rfl, rfl, rfl⟩
    · exact ⟨rfl, rfl, rfl⟩

/-- Witness for C3 on a fresh provider record. -/
theorem C3_health_transitions_witness :
    ((ProviderHealth.init "stt" 0).mark_failure "boom").state = .DEGRADED ∧
    (((ProviderHealth.init "stt" 0).mark_success 5).state = .HEALTHY ∧
      ((ProviderHealth.init "stt" 0).mark_success 5).failure_count = 0 ∧
      ((ProviderHealth.init "stt" 0).mark_success 5).last_error = none) ∧
    ((supervisor_run (SupervisorEntry.register "stt" 0) [.mark_healthy 5]).health.state
        = .HEALTHY ∧
      (supervisor_run (SupervisorEntry.register "stt" 0) [.mark_healthy 5]).health.failure_count
        = 0 ∧
      (supervisor_run (SupervisorEntry.register "stt" 0) [.mark_healthy 5]).health.last_error
        = none) := by
  refine ⟨?_, ?_, ?_⟩
  · exact (C3_health_transitions (ProviderHealth.init "stt" 0)
      (SupervisorEntry.register "stt" 0) "boom" 5).1 (by decide)
  · exact (C3_health_transitions (ProviderHealth.init "stt" 0)
      (SupervisorEntry.register "stt" 0) "boom" 5).2.2.2.1
  · exact (C3_health_transitions (ProviderHealth.init "stt" 0)
      (SupervisorEntry.register "stt" 0) "boom" 5).2.2.2.2 (by decide)

/-! ## Chaos switchboard (`chaos/fault_injection.py`) -/

/-- `ChaosConfig` (`chaos/fault_injection.py`, lines 14-27).  Float
knobs are embedded as rationals; the code only assigns and compares
them. -/
structure ChaosConfig where
  enabled : Bool
  experiment_id : Option String
  experiment_type : Option String
  llm_latency_multiplier : Rat
  rate_limit_probability : Rat
  tool_failure_rate : Rat
  persistence_failure_rate : Rat
  memory_inflation_factor : Rat
  long_session_mode : Bool
deriving DecidableEq, Repr

/-- The dataclass defaults of `ChaosConfig`. -/
def ChaosConfig.default : ChaosConfig :=
  { enabled := false, experiment_id := none, experiment_type := none
  , llm_latency_multiplier := 1, rate_limit_probability := 0
  , tool_failure_rate := 0, persistence_failure_rate := 0
  , memory_inflation_factor := 1, long_session_mode := false }

/-- The JSON/dict argument of `enable_faults`: each knob may or may not
be present (`config.get(key, default)`). -/
structure FaultConfigDict where
  llm_latency_multiplier : Option Rat
  rate_limit_probability : Option Rat
  tool_failure_rate : Option Rat
  persistence_failure_rate : Option Rat
  memory_inflation_factor : Option Rat
  long_session_mode : Option Bool
  experiment_id : Option String
  experiment_type : Option String
deriving DecidableEq, Repr

/-- `enable_faults` (`chaos/fault_injection.py`, lines 36-52): sets
`enabled`, overwrites the six knobs from the dict with their `get`
defaults, and sets `experiment_id` / `experiment_type` only when the
keys are present. -/
def enable_faults (g : ChaosConfig) (config : FaultConfigDict) : ChaosConfig :=
  { g with
    enabled := true
    llm_latency_multiplier := config.llm_latency_multiplier.getD 1
    rate_limit_probability := config.rate_limit_probability.getD 0
    tool_failure_rate := config.tool_failure_rate.getD 0
    persistence_failure_rate := config.persistence_failure_rate.getD 0
    memory_inflation_factor := config.memory_inflation_factor.getD 1
    long_session_mode := config.long_session_mode.getD false
    experiment_id :=
      match config.experiment_id with
      | some e => some e
      | none => g.experiment_id
    experiment_type :=
      match config.experiment_type with
      | some e => some e
      | none => g.experiment_type }

/-- `disable_faults` (`chaos/fault_injection.py`, lines 54-64): clears
`enabled` and five knobs; it does not touch `persistence_failure_rate`,
`experiment_id` or `experiment_type`. -/
def disable_faults (g : ChaosConfig) : ChaosConfig :=
  { g with
    enabled := false
    llm_latency_multiplier := 1
    rate_limit_probability := 0
    tool_failure_rate := 0
    memory_inflation_factor := 1
    long_session_mode := false }

/-- Claim C10: after `enable_faults(c)` followed by `disable_faults()`,
`enabled` is false and `llm_latency_multiplier`,
`rate_limit_probability`, `tool_failure_rate`,
`memory_inflation_factor`, `long_session_mode` are back at their
dataclass defaults, while `persistence_failure_rate`, `experiment_id`
and `experiment_type` keep the values set by `enable_faults`. -/
theorem C10_disable_faults_frame (g : ChaosConfig) (c : FaultConfigDict) :
    (disable_faults (enable_faults g c)).enabled = false ∧
    (disable_faults (enable_faults g c)).llm_latency_multiplier
      = ChaosConfig.default.llm_latency_multiplier ∧
    (disable_faults (enable_faults g c)).rate_limit_probability
      = ChaosConfig.default.rate_limit_probability ∧
    (disable_faults (enable_faults g c)).tool_failure_rate
      = ChaosConfig.default.tool_failure_rate ∧
    (disable_faults (enable_faults g c)).memory_inflation_factor
      = ChaosConfig.default.memory_inflation_factor ∧
    (disable_faults (enable_faults g c)).long_session_mode
      = ChaosConfig.default.long_session_mode ∧
    (disable_faults (enable_faults g c)).persistence_failure_rate
      = (enable_faults g c).persistence_failure_rate ∧
    (disable_faults (enable_faults g c)).experiment_id
      = (enable_faults g c).experiment_id ∧
    (disable_faults (enable_faults g c)).experiment_type
      = (enable_faults g c).experiment_type ∧
    (enable_faults g c).persistence_failure_rate
      = c.persistence_failure_rate.getD 0 :=
  ⟨rfl, rfl, rfl, rfl, rfl, rfl, rfl, rfl, rfl, rfl⟩

/-! ## Conversation session (`core/session/conversation_session.py`) -/

/-- `AudioState` (`conversation_session.py`, lines 12-15). -/
inductive AudioState
  | HEALTHY
  | RECONNECTING
  | OFFLINE
deriving DecidableEq, Repr

/-- The provider names treated as primary voice dependencies by
`_on_provider_health_change` (`conversation_session.py`, line 48). -/
def voice_dependency_names : List String := ["stt_provider", "stt", "deepgram"]

/-- `ConversationSession._on_provider_health_change`
(`conversation_session.py`, lines 43-58), as a function from the
notified provider name and state and the current `audio_state` to the
new `audio_state` and the announcement passed to `_announce`, if
any. -/
def on_provider_health_change (name : String) (state : ProviderState)
    (audio : AudioState) : AudioState × Option String :=
  if voice_dependency_names.contains name then
    if state ≠ ProviderState.HEALTHY then
      if audio ≠ AudioState.RECONNECTING then
        (AudioState.RECONNECTING,
          some "I am having trouble hearing you. Reconnecting voice services...")
      else (audio, none)
    else
      if audio = AudioState.RECONNECTING then
        (AudioState.HEALTHY, some "Voice connection restored.")
      else (audio, none)
  else (audio, none)

/-- Counterexample to claim C9 as stated: `tts` is a voice-path
provider per the claim, yet a `tts` transition to OFFLINE leaves
`audio_state` HEALTHY and announces nothing — the handler only reacts
to the names `stt_provider`, `stt`, `deepgram`. -/
theorem C9_counterexample :
    on_provider_health_change "tts" ProviderState.OFFLINE AudioState.HEALTHY
      = (AudioState.HEALTHY, none) ∧
    (on_provider_health_change "tts" ProviderState.OFFLINE AudioState.HEALTHY).1
      ≠ AudioState.RECONNECTING ∧
    (on_provider_health_change "tts" ProviderState.OFFLINE AudioState.HEALTHY).2
      ≠ some "I am having trouble hearing you. Reconnecting voice services..." :=
  ⟨by decide, by decide, by decide⟩

/-- Claim C9 (amended): only transitions of the stt-path provider names
(`stt_provider`, `stt`, `deepgram`) drive the audio state: a transition
to a non-HEALTHY state while not already RECONNECTING moves
`audio_state` to RECONNECTING and announces the trouble message, a
return to HEALTHY while RECONNECTING moves it back to HEALTHY and
announces the restore message; transitions of any other provider (in
particular `tts`) leave the audio state unchanged and announce
nothing. -/
theorem C9_voice_path_transitions (name : String) (state : ProviderState)
    (audio : AudioState) :
    (voice_dependency_names.contains name = true →
      ((state ≠ ProviderState.HEALTHY → audio ≠ AudioState.RECONNECTING →
          on_provider_health_change name state audio =
            (AudioState.RECONNECTING,
              some "I am having trouble hearing you. Reconnecting voice services...")) ∧
        (state ≠ ProviderState.HEALTHY → audio = AudioState.RECONNECTING →
          on_provider_health_change name state audio = (audio, none)) ∧
        (state = ProviderState.HEALTHY → audio = AudioState.RECONNECTING →
          on_provider_health_change name state audio =
            (AudioState.HEALTHY, some "Voice connection restored.")) ∧
        (state = ProviderState.HEALTHY → audio ≠ AudioState.RECONNECTING →
          on_provider_health_change name state audio = (audio, none)))) ∧
    (voice_dependency_names.contains name = false →
      on_provider_health_change name state audio = (audio, none)) := by
  constructor
  · intro hmem
    have hmem' : name ∈ voice_dependency_names := by simpa using hmem
    refine ⟨?_, ?_, ?_, ?_⟩
    · intro hs ha
      simp [on_provider_health_change, hmem', hs, ha]
    · intro hs ha
      simp [on_provider_health_change, hmem', hs, ha]
    · intro hs ha
      simp [on_provider_health_change, hmem', hs, ha]
    · intro hs ha
      simp [on_provider_health_change, hmem', hs, ha]
  · intro hmem
    have hmem' : ¬ name ∈ voice_dependency_names := by simpa using hmem
    simp [on_provider_health_change, hmem']

/-- Witness for C9 (amended) at concrete providers `stt` and `tts`. -/
theorem C9_voice_path_transitions_witness :
    on_provider_health_change "stt" ProviderState.OFFLINE AudioState.HEALTHY =
      (AudioState.RECONNECTING,
        some "I am having trouble hearing you. Reconnecting voice services...") ∧
    on_provider_health_change "stt" ProviderState.HEALTHY AudioState.RECONNECTING =
      (AudioState.HEALTHY, some "Voice connection restored.") ∧
    on_provider_health_change "tts" ProviderState.OFFLINE AudioState.HEALTHY =
      (AudioState.HEALTHY, none) :=
  ⟨((C9_voice_path_transitions "stt" ProviderState.OFFLINE AudioState.HEALTHY).1
      (by decide)).1 (by decide) (by decide),
   (((C9_voice_path_transitions "stt" ProviderState.HEALTHY AudioState.RECONNECTING).1
      (by decide)).2.2.1 rfl rfl),
   (C9_voice_path_transitions "tts" ProviderState.OFFLINE AudioState.HEALTHY).2
      (by decide)⟩

/-! ## Smart LLM per-turn context construction (`core/llm/smart_llm.py`) -/

/-- Chat message roles accepted by the context contract. -/
inductive ChatRole
  | system
  | user
  | assistant
  | tool
deriving DecidableEq, Repr

/-- Message content: a plain string or a list of parts (LiveKit allows
both shapes; `SmartLLMStream._run` builds its system message with a
one-element list). -/
inductive ChatContent
  | str (s : String)
  | items (l : List String)
deriving DecidableEq, Repr

/-- A chat message. -/
structure ChatMessage where
  role : ChatRole
  content : ChatContent
deriving DecidableEq, Repr

/-- The message list of the fresh `ChatContext` built by
`SmartLLMStream._run` (`core/llm/smart_llm.py`, lines 121-141): start
from the singleton system message `[system_prompt]`, then append every
non-system message of the input context in order. -/
def build_filtered_messages (system_prompt : String)
    (original : List ChatMessage) : List ChatMessage :=
  original.foldl
    (fun acc msg => if msg.role = ChatRole.system then acc else acc ++ [msg])
    [{ role := ChatRole.system, content := ChatContent.items [system_prompt] }]

theorem build_filtered_messages_aux (l : List ChatMessage) :
    ∀ acc : List ChatMessage,
      l.foldl (fun acc msg => if msg.role = ChatRole.system then acc else acc ++ [msg]) acc
        = acc ++ l.filter (fun m => m.role != ChatRole.system) := by
  induction l with
  | nil => intro acc; simp
  | cons m rest ih =>
      intro acc
      by_cases h : m.role = ChatRole.system
      · simp [List.foldl_cons, h, ih, List.filter_cons]
      · simp [List.foldl_cons, h, ih, List.filter_cons]

/-- Claim C6: the context passed to the underlying LLM is a fresh
message list whose first element is a system message carrying the
context-builder's system prompt, followed by exactly the non-system
messages of the input context in their original order; in particular it
contains exactly one system message, at position 0. -/
theorem C6_fresh_context (sp : String) (orig : List ChatMessage) :
    build_filtered_messages sp orig =
      { role := ChatRole.system, content := ChatContent.items [sp] } ::
        orig.filter (fun m => m.role != ChatRole.system) ∧
    (build_filtered_messages sp orig).head? =
      some { role := ChatRole.system, content := ChatContent.items [sp] } ∧
    ((build_filtered_messages sp orig).tail.all fun m => m.role != ChatRole.system) = true ∧
    (build_filtered_messages sp orig).countP (fun m => m.role == ChatRole.system) = 1 := by
  have hmain : build_filtered_messages sp orig =
      { role := ChatRole.system, content := ChatContent.items [sp] } ::
        orig.filter (fun m => m.role != ChatRole.system) := by
    unfold build_filtered_messages
    rw [build_filtered_messages_aux]
    simp
  refine ⟨hmain, ?_, ?_, ?_⟩
  · rw [hmain]; rfl
  · rw [hmain]
    simp only [List.tail_cons, List.all_eq_true]
    intro m hm
    exact (List.mem_filter.mp hm).2
  · rw [hmain]
    rw [List.countP_cons]
    have hz : (orig.filter (fun m => m.role != ChatRole.system)).countP
        (fun m => m.role == ChatRole.system) = 0 := by
      rw [List.countP_eq_zero]
      intro m hm
      have := (List.mem_filter.mp hm).2
      simpa using this
    simp [hz]

/-! ## Smart LLM per-turn tool-schema fix (`core/llm/smart_llm.py`,
lines 147-169)

Each tool is deep-copied, and when the copy exposes `info.parameters`
as a dict, a missing `'properties'` key is added with value `{}`.  The
dict is modelled as an ordered key/value list, Python insertion
semantics appending the new key at the end. -/

/-- A JSON-ish value stored in a tool parameters schema. -/
inductive SchemaVal
  | str (s : String)
  | emptyObj
  | obj
  | other
deriving DecidableEq, Repr

/-- A Python dict used as a tool parameters schema. -/
abbrev SchemaDict := List (String × SchemaVal)

/-- Python `key in dict`. -/
def dictContains (d : SchemaDict) (k : String) : Bool :=
  d.any (fun kv => kv.1 == k)

/-- Shape of `tool.info.parameters` as probed by the fix: absent
(`hasattr` fails), not a dict, or a dict. -/
inductive ToolParamsShape
  | noParams
  | nonDict
  | dict (d : SchemaDict)
deriving DecidableEq, Repr

/-- The dict-level fix: add `'properties': {}` when the key is
missing. -/
def fix_params_dict (d : SchemaDict) : SchemaDict :=
  if dictContains d "properties" then d
  else d ++ [("properties", SchemaVal.emptyObj)]

/-- The per-tool schema fix applied to the deep copy of each tool in
`SmartLLMStream._run`: tools without a dict-shaped `info.parameters`
pass through untouched. -/
def fix_tool_schema : ToolParamsShape → ToolParamsShape
  | .dict d => .dict (fix_params_dict d)
  | t => t

/-- Whether a fixed tool's schema carries `type == "object"`. -/
def typeIsObject : ToolParamsShape → Bool
  | .dict d => d.lookup "type" == some (SchemaVal.str "object")
  | _ => false

theorem lookup_append_single (d : SchemaDict) (k k2 : String) (v : SchemaVal)
    (hne : k ≠ k2) : (d ++ [(k2, v)]).lookup k = d.lookup k := by
  induction d with
  | nil =>
      simp only [List.nil_append, List.lookup]
      have : (k == k2) = false := by simpa using hne
      simp [this]
  | cons p rest ih =>
      cases hk : (k == p.1) <;> simp [List.lookup, hk, ih]

/-- Counterexample to claim C7 as stated: a tool whose dict-shaped
parameters carry `type: "string"` is presented to the underlying LLM
with `properties` added but with `type` still not `"object"` — the
per-turn fix never establishes `type == "object"`. -/
theorem C7_counterexample :
    fix_tool_schema (.dict [("type", SchemaVal.str "string")]) =
      .dict [("type", SchemaVal.str "string"), ("properties", SchemaVal.emptyObj)] ∧
    typeIsObject (fix_tool_schema (.dict [("type", SchemaVal.str "string")])) = false := by
  constructor
  · rfl
  · decide

/-- Claim C7 (amended): for every tool passed to SmartLLM whose
`info.parameters` is a dict, the schema presented to the underlying LLM
contains a `properties` key (added as `{}` when absent, on a deep copy
so the original tool is not mutated); every other key, in particular
`type`, is passed through unchanged, so the presented schema satisfies
`type == "object"` exactly when the incoming tool already did; tools
without a dict-shaped parameters attribute pass through untouched. -/
theorem C7_schema_fix (d : SchemaDict) (k : String) :
    dictContains (fix_params_dict d) "properties" = true ∧
    (k ≠ "properties" → (fix_params_dict d).lookup k = d.lookup k) ∧
    (fix_params_dict d).lookup "type" = d.lookup "type" ∧
    typeIsObject (fix_tool_schema (.dict d)) =
      (d.lookup "type" == some (SchemaVal.str "object")) ∧
    (dictContains d "properties" = true → fix_params_dict d = d) ∧
    fix_tool_schema ToolParamsShape.noParams = ToolParamsShape.noParams ∧
    fix_tool_schema ToolParamsShape.nonDict = ToolParamsShape.nonDict ∧
    fix_tool_schema (ToolParamsShape.dict d) = ToolParamsShape.dict (fix_params_dict d) := by
  have htype : (fix_params_dict d).lookup "type" = d.lookup "type" := by
    unfold fix_params_dict
    split
    · rfl
    · exact lookup_append_single d "type" "properties" SchemaVal.emptyObj (by decide)
  refine ⟨?_, ?_, htype, ?_, ?_, rfl, rfl, rfl⟩
  · unfold fix_params_dict
    cases hc : dictContains d "properties"
    · simp only [hc, if_false, dictContains, List.any_append]
      simp
    · simp [hc]
  · intro hk
    unfold fix_params_dict
    split
    · rfl
    · exact lookup_append_single d k "properties" SchemaVal.emptyObj hk
  · show ((fix_params_dict d).lookup "type" == some (SchemaVal.str "object")) = _
    rw [htype]
  · intro hc
    unfold fix_params_dict
    simp [hc]

/-- Witness for C7 (amended) on a concrete well-formed schema. -/
theorem C7_schema_fix_witness :
    dictContains (fix_params_dict [("type", SchemaVal.str "object")]) "properties" = true ∧
    (fix_params_dict [("type", SchemaVal.str "object")]).lookup "type" =
      [(("type" : String), SchemaVal.str "object")].lookup "type" ∧
    (fix_params_dict [("type", SchemaVal.str "object")]).lookup "required" =
      [(("type" : String), SchemaVal.str "object")].lookup "required" ∧
    typeIsObject (fix_tool_schema (.dict [("type", SchemaVal.str "object")])) =
      ([(("type" : String), SchemaVal.str "object")].lookup "type"
        == some (SchemaVal.str "object")) ∧
    (fix_params_dict [("type", SchemaVal.str "object"), ("properties", SchemaVal.emptyObj)] =
      [("type", SchemaVal.str "object"), ("properties", SchemaVal.emptyObj)]) :=
  ⟨(C7_schema_fix [("type", SchemaVal.str "object")] "required").1,
   (C7_schema_fix [("type", SchemaVal.str "object")] "required").2.2.1,
   (C7_schema_fix [("type", SchemaVal.str "object")] "required").2.1 (by decide),
   (C7_schema_fix [("type", SchemaVal.str "object")] "required").2.2.2.1,
   (C7_schema_fix [("type", SchemaVal.str "object"), ("properties", SchemaVal.emptyObj)]
      "required").2.2.2.2.1 (by decide)⟩

/-! ## Stream probe (`probes/runtime/probe_engine.py`, lines 184-257)
and telemetry around streaming (`core/llm/smart_llm.py`,
lines 204-255)

The underlying stream is modelled as a finite trace of results of
successive `__anext__` calls together with the arrival time of the
first result; only the first call is guarded by `asyncio.wait_for`, so
only the first arrival time matters.  A trace that ends without a
terminating event models a stream the consumer is still awaiting. -/

/-- A Python exception as observed by the probe: either a probe
`StreamError` or any other exception (carrying its `str(e)`
rendering). -/
inductive PyExn
  | streamError (msg : String)
  | otherError (msg : String)
deriving DecidableEq, Repr

/-- `str(e)` of a modelled exception. -/
def PyExn.str : PyExn → String
  | .streamError m => m
  | .otherError m => m

/-- One result of `self.stream.__anext__()`. -/
inductive StreamEv
  | chunk
  | stopIteration
  | raises (e : PyExn)
deriving DecidableEq, Repr

/-- How a probed stream run terminates: trace exhausted with the
consumer still awaiting, clean end (`StopAsyncIteration` after at least
one chunk), or an exception raised by the probe, recording whether a
close of the underlying stream was attempted. -/
inductive ProbeOutcome
  | pending
  | cleanEnd
  | raised (e : PyExn) (close_attempted : Bool)
deriving DecidableEq, Repr

/-- Chunks forwarded to the consumer plus the termination outcome. -/
structure ProbeRun where
  chunks : Nat
  outcome : ProbeOutcome
deriving DecidableEq, Repr

/-- The f-string of the timeout error
(`probe_engine.py`, line 238); `tstr` is Python's rendering of the
float `timeout_seconds`. -/
def timeout_message (tstr : String) : String :=
  "Stream timeout: No chunks received within " ++ tstr ++ "s"

/-- `StreamProbe.__anext__` after the first chunk was received
(`probe_engine.py`, lines 221-257): no per-chunk timeout; a
`StopAsyncIteration` with a positive chunk count propagates (clean
end); any other exception triggers a close attempt and a wrapping
`StreamError`. -/
def stream_probe_tail : List StreamEv → Nat → ProbeRun
  | [], n => { chunks := n, outcome := .pending }
  | .chunk :: rest, n => stream_probe_tail rest (n + 1)
  | .stopIteration :: _, n => { chunks := n, outcome := .cleanEnd }
  | .raises e :: _, n =>
      { chunks := n
      , outcome := .raised (.streamError ("Stream error: " ++ e.str)) true }

/-- A full probed run (`probe_engine.py`, lines 209-257).  If the first
result does not arrive within `timeout` (or never arrives),
`asyncio.wait_for` raises `TimeoutError`, the probe attempts to close
the stream and raises the timeout `StreamError`; a first-result
`StopAsyncIteration` raises the zero-chunk `StreamError` without a
close attempt; a first-result exception is closed and wrapped; a first
chunk in time starts the untimed tail. -/
def stream_probe_run (timeout : Rat) (tstr : String) (first_delay : Rat)
    (events : List StreamEv) : ProbeRun :=
  match events with
  | [] => { chunks := 0, outcome := .raised (.streamError (timeout_message tstr)) true }
  | e :: rest =>
      if timeout < first_delay then
        { chunks := 0, outcome := .raised (.streamError (timeout_message tstr)) true }
      else
        match e with
        | .chunk => stream_probe_tail rest 1
        | .stopIteration =>
            { chunks := 0
            , outcome := .raised (.streamError "Stream ended without emitting any chunks") false }
        | .raises ex =>
            { chunks := 0
            , outcome := .raised (.streamError ("Stream error: " ++ ex.str)) true }

/-- `SmartLLMStream._run` wraps the base stream in
`StreamProbe(base_stream, timeout_seconds=10.0)`
(`core/llm/smart_llm.py`, line 206); Python renders the float 10.0 as
`"10.0"`. -/
def smart_llm_stream_probe (first_delay : Rat) (events : List StreamEv) : ProbeRun :=
  stream_probe_run 10 "10.0" first_delay events

/-- `RequestMetrics()` initialises `probe_failures` to 0 and
`monitor.start_request()` installs a fresh `RequestMetrics`
(`telemetry/session_monitor.py`, lines 17 and 73-76). -/
def request_metrics_reset_probe_failures : Nat := 0

/-- The `probe_failures` value of the per-request metrics after
`SmartLLMStream._run` finishes: the exception handler executes
`monitor.record_metric('probe_failures', 1)` on any stream error
(`core/llm/smart_llm.py`, line 253), and the field stays at its reset
value 0 otherwise. -/
def smart_llm_run_probe_failures (run : ProbeRun) : Nat :=
  match run.outcome with
  | .raised _ _ => 1
  | _ => request_metrics_reset_probe_failures

theorem stream_probe_tail_chunks_ge (rest : List StreamEv) (n : Nat) :
    n ≤ (stream_probe_tail rest n).chunks := by
  induction rest generalizing n with
  | nil => exact Nat.le_refl n
  | cons e r ih =>
      cases e with
      | chunk => exact Nat.le_trans (Nat.le_succ n) (ih (n + 1))
      | stopIteration => exact Nat.le_refl n
      | raises ex => exact Nat.le_refl n

/-- Counterexample to claim C4 as stated: when the underlying stream
raises an exception other than a timeout (here a generic error `boom`
arriving immediately), the probe attempts the close but raises a fresh
`StreamError("Stream error: boom")` instead of re-raising the original
error. -/
theorem C4_counterexample :
    smart_llm_stream_probe 0 [StreamEv.raises (PyExn.otherError "boom")] =
      { chunks := 0
      , outcome := .raised (PyExn.streamError "Stream error: boom") true } ∧
    (smart_llm_stream_probe 0 [StreamEv.raises (PyExn.otherError "boom")]).outcome ≠
      ProbeOutcome.raised (PyExn.otherError "boom") true :=
  ⟨by decide, by decide⟩

/-- Claim C4 (amended): for every SmartLLM-probed stream (timeout
10.0 s), either at least one chunk is emitted within 10.0 s, or a
`StreamError` is raised: the timeout variant with message
`Stream timeout: No chunks received within 10.0s` (close attempted)
when nothing arrives in time, the zero-chunk variant when the stream
ends with no chunks, and on any other exception a close is attempted
and a `StreamError` wrapping the original error's message is raised
(the original exception is not re-raised); on any such stream failure
the per-request `probe_failures` metric ends at its reset value plus
one. -/
theorem C4_stream_probe (d : Rat) (events : List StreamEv) :
    (events = [] ∨ 10 < d →
      smart_llm_stream_probe d events =
        { chunks := 0
        , outcome := .raised
            (.streamError "Stream timeout: No chunks received within 10.0s") true }) ∧
    (∀ rest, d ≤ 10 → events = StreamEv.chunk :: rest →
      1 ≤ (smart_llm_stream_probe d events).chunks) ∧
    (∀ rest, d ≤ 10 → events = StreamEv.stopIteration :: rest →
      smart_llm_stream_probe d events =
        { chunks := 0
        , outcome := .raised
            (.streamError "Stream ended without emitting any chunks") false }) ∧
    (∀ ex rest, d ≤ 10 → events = StreamEv.raises ex :: rest →
      smart_llm_stream_probe d events =
        { chunks := 0
        , outcome := .raised (.streamError ("Stream error: " ++ ex.str)) true }) ∧
    (∀ e c, (smart_llm_stream_probe d events).outcome = .raised e c →
      smart_llm_run_probe_failures (smart_llm_stream_probe d events) =
        request_metrics_reset_probe_failures + 1) := by
  refine ⟨?_, ?_, ?_, ?_, ?_⟩
  · intro h
    cases h with
    | inl he => subst he; rfl
    | inr hd =>
        cases events with
        | nil => rfl
        | cons e rest =>
            simp only [smart_llm_stream_probe, stream_probe_run, if_pos hd]
            rfl
  · intro rest hd he
    subst he
    have hnd : ¬ (10 : Rat) < d := not_lt.mpr hd
    simp only [smart_llm_stream_probe, stream_probe_run, if_neg hnd]
    exact stream_probe_tail_chunks_ge rest 1
  · intro rest hd he
    subst he
    have hnd : ¬ (10 : Rat) < d := not_lt.mpr hd
    simp only [smart_llm_stream_probe, stream_probe_run, if_neg hnd]
  · intro ex rest hd he
    subst he
    have hnd : ¬ (10 : Rat) < d := not_lt.mpr hd
    simp only [smart_llm_stream_probe, stream_probe_run, if_neg hnd]
  · intro e c hout
    unfold smart_llm_run_probe_failures
    rw [hout]
    rfl

/-- Witness for C4 (amended) on concrete streams: an empty (hanging)
stream, a prompt single-chunk stream, a zero-chunk ending stream, an
erroring stream, and the metric update for the hanging stream. -/
theorem C4_stream_probe_witness :
    smart_llm_stream_probe 0 [] =
      { chunks := 0
      , outcome := .raised
          (.streamError "Stream timeout: No chunks received within 10.0s") true } ∧
    1 ≤ (smart_llm_stream_probe 0 [StreamEv.chunk]).chunks ∧
    smart_llm_stream_probe 0 [StreamEv.stopIteration] =
      { chunks := 0
      , outcome := .raised
          (.streamError "Stream ended without emitting any chunks") false } ∧
    smart_llm_stream_probe 0 [StreamEv.raises (PyExn.otherError "x")] =
      { chunks := 0
      , outcome := .raised
          (.streamError ("Stream error: " ++ (PyExn.otherError "x").str)) true } ∧
    smart_llm_run_probe_failures (smart_llm_stream_probe 0 []) =
      request_metrics_reset_probe_failures + 1 :=
  ⟨(C4_stream_probe 0 []).1 (Or.inl rfl),
   (C4_stream_probe 0 [StreamEv.chunk]).2.1 [] (by decide) rfl,
   (C4_stream_probe 0 [StreamEv.stopIteration]).2.2.1 [] (by decide) rfl,
   (C4_stream_probe 0 [StreamEv.raises (PyExn.otherError "x")]).2.2.2.1
      (PyExn.otherError "x") [] (by decide) rfl,
   (C4_stream_probe 0 []).2.2.2.2
      (PyExn.streamError "Stream timeout: No chunks received within 10.0s") true
      (by decide)⟩

end Maya
